import Mathlib

/-!
Verification of the token lifecycle and authentication core of squads-cli.

The development shallowly embeds the Rust sources `src/api/client.rs`,
`src/api/auth.rs`, `src/cache.rs`, `src/types/mod.rs` and the polling loop
of `src/cli/auth.rs`.  Network I/O is modelled by an explicit environment
(`Env`) carrying the provider responses (with `none` standing for a
network/HTTP failure) and the current wall-clock time; cache-file I/O is
modelled by an abstract `DiskFile` plus success flags for writes and
deletes.  Every function returns, besides its result, the successor client
state and the ordered list of network calls it performed.
-/

set_option autoImplicit false

namespace Squads

/-- Access token with expiration, `src/types/mod.rs` (`AccessToken`):
an opaque bearer string plus an epoch-seconds expiry. -/
structure AccessToken where
  value : String
  expires : Nat
deriving DecidableEq

/-- Minimal model of a `serde_json` value as inspected by the auth code:
the code only ever asks a field for `as_str` or `as_u64`. -/
inductive JVal where
  | str (s : String)
  | num (n : Nat)
  | other
deriving DecidableEq

/-- Model of `serde_json::Value::as_str`. -/
def JVal.as_str : JVal → Option String
  | .str s => some s
  | _ => none

/-- Model of `serde_json::Value::as_u64`. -/
def JVal.as_u64 : JVal → Option Nat
  | .num n => some n
  | _ => none

/-- Token storage containing all tokens, `src/types/mod.rs` (`TokenStore`):
a map from key to `AccessToken`, modelled as an association list with
unique keys. -/
structure TokenStore where
  tokens : List (String × AccessToken)
deriving DecidableEq

/-- `TokenStore::get`. -/
def TokenStore.get (s : TokenStore) (scope : String) : Option AccessToken :=
  (s.tokens.find? fun p => p.1 == scope).map Prod.snd

/-- `TokenStore::insert`: `HashMap::insert` replaces any previous entry for
the key. -/
def TokenStore.insert (s : TokenStore) (scope : String) (token : AccessToken) :
    TokenStore :=
  ⟨(scope, token) :: s.tokens.filter fun p => p.1 != scope⟩

/-- `TokenStore::refresh_token`. -/
def TokenStore.refresh_token (s : TokenStore) : Option AccessToken :=
  s.get "refresh_token"

/-- `TokenStore::skype_token`. -/
def TokenStore.skype_token (s : TokenStore) : Option AccessToken :=
  s.get "skype_token"

/-- The default (empty) token store. -/
def TokenStore.empty : TokenStore := ⟨[]⟩

/-- Error taxonomy of the core (spec section 7); the Rust code reports these
as `anyhow` messages, the constructors follow the spec's names. -/
inductive TokenError where
  | NotAuthenticated
  | DeviceCodeFailed
  | AuthorizationTimeout
  | TokenExchangeFailed
  | MalformedResponse
  | CacheIOError
deriving DecidableEq

/-- The fields of an OAuth token-endpoint JSON body that `src/api/auth.rs`
looks up in its `HashMap<String, Value>`; `none` means the field is absent. -/
structure TokenResponse where
  refresh_token : Option JVal
  access_token : Option JVal
  expires_in : Option JVal
deriving DecidableEq

/-- The nested `tokens` object of the authz endpoint response. -/
structure SkypeTokens where
  skypeToken : Option JVal
  expiresIn : Option JVal
deriving DecidableEq

/-- The authz endpoint response body used by `gen_skype_token`. -/
structure SkypeResponse where
  tokens : Option SkypeTokens
deriving DecidableEq

/-- Response handling of `gen_refresh_token_from_device_code`
(`src/api/auth.rs:108-125`) on a 2xx body: `refresh_token` must be a
string; `expires_in` is read `as_str` then parsed, defaulting to 3600. -/
def gen_refresh_token_from_device_code (now : Nat) (r : TokenResponse) :
    Except TokenError AccessToken :=
  match r.refresh_token.bind JVal.as_str with
  | none => .error .MalformedResponse
  | some v =>
    .ok ⟨v, now + (((r.expires_in.bind JVal.as_str).bind String.toNat?).getD 3600)⟩

/-- Response handling of `renew_refresh_token` (`src/api/auth.rs:164-180`):
`refresh_token` must be a string; `expires_in` is read `as_u64`,
defaulting to 3600. -/
def renew_refresh_token (now : Nat) (r : TokenResponse) :
    Except TokenError AccessToken :=
  match r.refresh_token.bind JVal.as_str with
  | none => .error .MalformedResponse
  | some v => .ok ⟨v, now + ((r.expires_in.bind JVal.as_u64).getD 3600)⟩

/-- Response handling of `gen_token` (`src/api/auth.rs:221-237`):
`access_token` must be a string; `expires_in` is read `as_u64`,
defaulting to 3600. -/
def gen_token (now : Nat) (r : TokenResponse) : Except TokenError AccessToken :=
  match r.access_token.bind JVal.as_str with
  | none => .error .MalformedResponse
  | some v => .ok ⟨v, now + ((r.expires_in.bind JVal.as_u64).getD 3600)⟩

/-- Response handling of `gen_skype_token` (`src/api/auth.rs:268-288`): the
`tokens` object and its string `skypeToken` are required; `expiresIn` is
read `as_u64`, defaulting to 3600. -/
def gen_skype_token (now : Nat) (r : SkypeResponse) : Except TokenError AccessToken :=
  match r.tokens with
  | none => .error .MalformedResponse
  | some t =>
    match t.skypeToken.bind JVal.as_str with
    | none => .error .MalformedResponse
    | some v => .ok ⟨v, now + ((t.expiresIn.bind JVal.as_u64).getD 3600)⟩

/-- Abstract content of the on-disk `tokens.json` artifact: absent,
present but unreadable/unparseable, or holding a parsed `TokenStore`. -/
inductive DiskFile where
  | absent
  | corrupt
  | valid (ts : TokenStore)
deriving DecidableEq

/-- `Cache::load` (`src/cache.rs:37-47`): an absent file is `Ok(None)`; a
read or parse failure is an error; otherwise the parsed value. -/
def Cache.load : DiskFile → Except TokenError (Option TokenStore)
  | .absent => .ok none
  | .corrupt => .error .CacheIOError
  | .valid ts => .ok (some ts)

/-- `Cache::delete` (`src/cache.rs:50-57`): removes the file only when it
exists, so deleting an absent file is a silent no-op; a failing
`fs::remove_file` surfaces as an error with the file untouched. -/
def Cache.delete (deleteOk : Bool) : DiskFile → Except TokenError Unit × DiskFile
  | .absent => (.ok (), .absent)
  | f => if deleteOk then (.ok (), .absent) else (.error .CacheIOError, f)

/-- `Cache::save` (`src/cache.rs:28-34`): overwrites the file; a failing
write surfaces as an error. -/
def Cache.save (saveOk : Bool) (ts : TokenStore) (f : DiskFile) :
    Except TokenError Unit × DiskFile :=
  if saveOk then (.ok (), .valid ts) else (.error .CacheIOError, f)

/-- The environment of one client call: the current wall-clock time in epoch
seconds, the provider response for each possible exchange (`none` models a
network or non-2xx failure of that call), and whether cache-file writes and
deletes succeed. -/
structure Env where
  now : Nat
  renewResp : Option TokenResponse
  genResp : Option TokenResponse
  skypeResp : Option SkypeResponse
  saveOk : Bool
  deleteOk : Bool
deriving DecidableEq

/-- The mutable state of a `TeamsClient`: the in-memory token map and the
on-disk `tokens.json` artifact. -/
structure ClientState where
  store : TokenStore
  disk : DiskFile
deriving DecidableEq

/-- A network call performed by the token manager, in order. -/
inductive NetCall where
  | renew
  | exchange (scope : String)
  | skype
deriving DecidableEq

/-- Decidable equality for `Except`, needed to evaluate results of the
embedded operations on concrete inputs. -/
instance {e a : Type} [DecidableEq e] [DecidableEq a] : DecidableEq (Except e a)
  | .error x, .error y =>
    if h : x = y then .isTrue (by rw [h])
    else .isFalse (fun hh => h (by injection hh))
  | .error _, .ok _ => .isFalse (fun hh => Except.noConfusion hh)
  | .ok _, .error _ => .isFalse (fun hh => Except.noConfusion hh)
  | .ok x, .ok y =>
    if h : x = y then .isTrue (by rw [h])
    else .isFalse (fun hh => h (by injection hh))

/-- `SCOPE_SPACES` (`src/api/mod.rs`). -/
def SCOPE_SPACES : String := "https://api.spaces.skype.com/Authorization.ReadWrite"

/-- `TeamsClient::new` (`src/api/client.rs:54-66`): load `tokens.json`,
defaulting to the empty store only when `load` returned `None`; a load
error propagates through the `?` operator. -/
def TeamsClient.new (f : DiskFile) : Except TokenError ClientState :=
  match Cache.load f with
  | .error e => .error e
  | .ok o => .ok ⟨o.getD TokenStore.empty, f⟩

/-- `TeamsClient::is_authenticated` (`src/api/client.rs:69-71`). -/
def TeamsClient.is_authenticated (st : ClientState) : Bool :=
  st.store.refresh_token.isSome

/-- `TeamsClient::save_tokens` (`src/api/client.rs:74-77`). -/
def TeamsClient.save_tokens (env : Env) (st : ClientState) :
    Except TokenError Unit × ClientState :=
  match Cache.save env.saveOk st.store st.disk with
  | (r, d) => (r, ⟨st.store, d⟩)

/-- `TeamsClient::store_refresh_token` (`src/api/client.rs:80-86`): insert
under `"refresh_token"`, then flush to cache. -/
def TeamsClient.store_refresh_token (env : Env) (st : ClientState)
    (token : AccessToken) : Except TokenError Unit × ClientState :=
  TeamsClient.save_tokens env ⟨st.store.insert "refresh_token" token, st.disk⟩

/-- `TeamsClient::clear_tokens` (`src/api/client.rs:89-95`): empty the
in-memory map, then delete the on-disk artifact. -/
def TeamsClient.clear_tokens (env : Env) (st : ClientState) :
    Except TokenError Unit × ClientState :=
  match Cache.delete env.deleteOk st.disk with
  | (r, d) => (r, ⟨TokenStore.empty, d⟩)

/-- Step 4 of `TeamsClient::get_token` (`src/api/client.rs:135-143`):
exchange the refresh token for a new scope token, store it and flush. -/
def TeamsClient.gen_step (env : Env) (st : ClientState) (scope : String)
    (calls : List NetCall) :
    Except TokenError AccessToken × ClientState × List NetCall :=
  match env.genResp with
  | none => (.error .TokenExchangeFailed, st, calls ++ [.exchange scope])
  | some resp =>
    match gen_token env.now resp with
    | .error e => (.error e, st, calls ++ [.exchange scope])
    | .ok nt =>
      let store1 := st.store.insert scope nt
      if env.saveOk then (.ok nt, ⟨store1, .valid store1⟩, calls ++ [.exchange scope])
      else (.error .CacheIOError, ⟨store1, st.disk⟩, calls ++ [.exchange scope])

/-- Step 3 of `TeamsClient::get_token` (`src/api/client.rs:124-133`): return
the cached scope token when its `expires >= now`, else fall through to the
exchange. -/
def TeamsClient.scope_step (env : Env) (st : ClientState) (scope : String)
    (calls : List NetCall) :
    Except TokenError AccessToken × ClientState × List NetCall :=
  match st.store.get scope with
  | some t =>
    if env.now ≤ t.expires then (.ok t, st, calls)
    else TeamsClient.gen_step env st scope calls
  | none => TeamsClient.gen_step env st scope calls

/-- `TeamsClient::get_token` (`src/api/client.rs:98-144`): fail when no
refresh token is stored; renew the refresh token first when it is expired
(storing and flushing the renewed one); then serve the scope token from
cache or exchange for a fresh one. -/
def TeamsClient.get_token (env : Env) (st : ClientState) (scope : String) :
    Except TokenError AccessToken × ClientState × List NetCall :=
  match st.store.refresh_token with
  | none => (.error .NotAuthenticated, st, [])
  | some rt =>
    if rt.expires < env.now then
      match env.renewResp with
      | none => (.error .TokenExchangeFailed, st, [.renew])
      | some resp =>
        match renew_refresh_token env.now resp with
        | .error e => (.error e, st, [.renew])
        | .ok newRt =>
          let store1 := st.store.insert "refresh_token" newRt
          if env.saveOk then
            TeamsClient.scope_step env ⟨store1, .valid store1⟩ scope [.renew]
          else (.error .CacheIOError, ⟨store1, st.disk⟩, [.renew])
    else TeamsClient.scope_step env st scope []

/-- Derivation part of `TeamsClient::get_skype_token`
(`src/api/client.rs:160-171`): obtain a spaces-scope token via `get_token`,
then exchange it at the authz endpoint and persist the result. -/
def TeamsClient.skype_step (env : Env) (st : ClientState) :
    Except TokenError AccessToken × ClientState × List NetCall :=
  match TeamsClient.get_token env st SCOPE_SPACES with
  | (.error e, st1, calls) => (.error e, st1, calls)
  | (.ok _, st1, calls) =>
    match env.skypeResp with
    | none => (.error .TokenExchangeFailed, st1, calls ++ [.skype])
    | some resp =>
      match gen_skype_token env.now resp with
      | .error e => (.error e, st1, calls ++ [.skype])
      | .ok nt =>
        let store1 := st1.store.insert "skype_token" nt
        if env.saveOk then (.ok nt, ⟨store1, .valid store1⟩, calls ++ [.skype])
        else (.error .CacheIOError, ⟨store1, st1.disk⟩, calls ++ [.skype])

/-- `TeamsClient::get_skype_token` (`src/api/client.rs:147-172`): serve the
cached skype token while `expires >= now`, else derive a fresh one. -/
def TeamsClient.get_skype_token (env : Env) (st : ClientState) :
    Except TokenError AccessToken × ClientState × List NetCall :=
  match st.store.skype_token with
  | some t =>
    if env.now ≤ t.expires then (.ok t, st, [])
    else TeamsClient.skype_step env st
  | none => TeamsClient.skype_step env st

/-- One poll response of the device-code flow as seen by the login loop of
`src/cli/auth.rs`: any error from the redemption endpoint (including the
expected not-yet-authorized one) makes the loop continue. -/
inductive PollResult where
  | authorized (token : AccessToken)
  | pending
deriving DecidableEq

/-- Terminal outcome of the login polling loop. -/
inductive LoginOutcome where
  | success
  | storeFailed
  | timeout
  | exhausted
deriving DecidableEq

/-- `max_attempts` of the login polling loop (`src/cli/auth.rs:123`). -/
def max_attempts : Nat := 60

/-- The device-code polling loop of `login` (`src/cli/auth.rs:121-148`):
each iteration sleeps, increments the attempt counter and polls; an
authorized response stores the refresh token and terminates; a pending
response terminates with a timeout once the attempt budget is reached.
The third component lists every token handed to `store_refresh_token`. -/
def login_loop (env : Env) (st : ClientState) (maxAttempts : Nat) :
    List PollResult → Nat → LoginOutcome × ClientState × List AccessToken
  | [], _ => (.exhausted, st, [])
  | r :: rest, attempts =>
    match r with
    | .authorized token =>
      match TeamsClient.store_refresh_token env st token with
      | (.ok _, st1) => (.success, st1, [token])
      | (.error _, st1) => (.storeFailed, st1, [token])
    | .pending =>
      if maxAttempts ≤ attempts + 1 then (.timeout, st, [])
      else login_loop env st maxAttempts rest (attempts + 1)

theorem TokenStore.get_insert_self (s : TokenStore) (k : String) (t : AccessToken) :
    (s.insert k t).get k = some t := by
  unfold TokenStore.get TokenStore.insert
  rw [List.find?_cons_of_pos _ (by simp)]
  rfl

theorem find_filter_ne (l : List (String × AccessToken)) (k k2 : String)
    (h : k2 ≠ k) :
    (l.filter fun p => p.1 != k).find? (fun p => p.1 == k2) =
      l.find? (fun p => p.1 == k2) := by
  induction l with
  | nil => rfl
  | cons a l ih =>
    simp only [List.filter_cons]
    by_cases ha : a.1 = k2
    · have hk : (a.1 != k) = true := by
        simp only [bne_iff_ne, ne_eq]
        exact ha ▸ h
      rw [if_pos hk, List.find?_cons_of_pos _ (by simp [ha]),
        List.find?_cons_of_pos _ (by simp [ha])]
    · by_cases hk : a.1 = k
      · rw [if_neg (by simp [hk]), List.find?_cons_of_neg _ (by simp [ha]), ih]
      · rw [if_pos (by simp [hk]), List.find?_cons_of_neg _ (by simp [ha]),
          List.find?_cons_of_neg _ (by simp [ha]), ih]

theorem TokenStore.get_insert_ne (s : TokenStore) (k k2 : String)
    (t : AccessToken) (h : k2 ≠ k) : (s.insert k t).get k2 = s.get k2 := by
  unfold TokenStore.get TokenStore.insert
  rw [List.find?_cons_of_neg _ (by simp only [beq_iff_eq]; exact fun hh => h hh.symm),
    find_filter_ne s.tokens k k2 h]

theorem get_token_no_refresh (env : Env) (st : ClientState) (scope : String)
    (h : st.store.refresh_token = none) :
    TeamsClient.get_token env st scope = (.error .NotAuthenticated, st, []) := by
  unfold TeamsClient.get_token
  rw [h]

theorem get_token_fresh_refresh (env : Env) (st : ClientState) (scope : String)
    (rt : AccessToken) (h1 : st.store.refresh_token = some rt)
    (h2 : env.now ≤ rt.expires) :
    TeamsClient.get_token env st scope = TeamsClient.scope_step env st scope [] := by
  unfold TeamsClient.get_token
  rw [h1]
  exact if_neg (Nat.not_lt.mpr h2)

theorem get_token_renew_netfail (env : Env) (st : ClientState) (scope : String)
    (rt : AccessToken) (h1 : st.store.refresh_token = some rt)
    (h2 : rt.expires < env.now) (h3 : env.renewResp = none) :
    TeamsClient.get_token env st scope = (.error .TokenExchangeFailed, st, [.renew]) := by
  unfold TeamsClient.get_token
  rw [h1]
  dsimp only
  rw [if_pos h2, h3]

theorem get_token_renew_ok (env : Env) (st : ClientState) (scope : String)
    (rt nrt : AccessToken) (r1 : TokenResponse)
    (h1 : st.store.refresh_token = some rt) (h2 : rt.expires < env.now)
    (h3 : env.renewResp = some r1)
    (h4 : renew_refresh_token env.now r1 = .ok nrt) (h5 : env.saveOk = true) :
    TeamsClient.get_token env st scope =
      TeamsClient.scope_step env
        ⟨st.store.insert "refresh_token" nrt,
          .valid (st.store.insert "refresh_token" nrt)⟩ scope [.renew] := by
  unfold TeamsClient.get_token
  rw [h1]
  dsimp only
  rw [if_pos h2, h3]
  dsimp only
  rw [h4]
  dsimp only
  rw [h5]
  rfl

theorem scope_step_cached (env : Env) (st : ClientState) (scope : String)
    (calls : List NetCall) (t : AccessToken) (h1 : st.store.get scope = some t)
    (h2 : env.now ≤ t.expires) :
    TeamsClient.scope_step env st scope calls = (.ok t, st, calls) := by
  unfold TeamsClient.scope_step
  rw [h1]
  dsimp only
  rw [if_pos h2]

theorem scope_step_stale (env : Env) (st : ClientState) (scope : String)
    (calls : List NetCall)
    (h : ∀ t, st.store.get scope = some t → t.expires < env.now) :
    TeamsClient.scope_step env st scope calls =
      TeamsClient.gen_step env st scope calls := by
  unfold TeamsClient.scope_step
  cases hc : st.store.get scope with
  | none => rfl
  | some t => exact if_neg (Nat.not_le.mpr (h t hc))

theorem gen_step_netfail (env : Env) (st : ClientState) (scope : String)
    (calls : List NetCall) (h : env.genResp = none) :
    TeamsClient.gen_step env st scope calls =
      (.error .TokenExchangeFailed, st, calls ++ [.exchange scope]) := by
  unfold TeamsClient.gen_step
  rw [h]

theorem gen_step_ok (env : Env) (st : ClientState) (scope : String)
    (calls : List NetCall) (r2 : TokenResponse) (nt : AccessToken)
    (h1 : env.genResp = some r2) (h2 : gen_token env.now r2 = .ok nt)
    (h3 : env.saveOk = true) :
    TeamsClient.gen_step env st scope calls =
      (.ok nt, ⟨st.store.insert scope nt, .valid (st.store.insert scope nt)⟩,
        calls ++ [.exchange scope]) := by
  unfold TeamsClient.gen_step
  rw [h1]
  dsimp only
  rw [h2]
  dsimp only
  rw [h3]
  rfl

theorem gen_token_expires_ge (now : Nat) (r : TokenResponse) (t : AccessToken)
    (h : gen_token now r = .ok t) : now ≤ t.expires := by
  unfold gen_token at h
  cases hv : r.access_token.bind JVal.as_str with
  | none => rw [hv] at h; exact Except.noConfusion h
  | some v =>
    rw [hv] at h
    dsimp only at h
    cases h
    exact Nat.le_add_right now _

theorem renew_refresh_token_expires_ge (now : Nat) (r : TokenResponse)
    (t : AccessToken) (h : renew_refresh_token now r = .ok t) : now ≤ t.expires := by
  unfold renew_refresh_token at h
  cases hv : r.refresh_token.bind JVal.as_str with
  | none => rw [hv] at h; exact Except.noConfusion h
  | some v =>
    rw [hv] at h
    dsimp only at h
    cases h
    exact Nat.le_add_right now _

theorem gen_skype_token_expires_ge (now : Nat) (r : SkypeResponse)
    (t : AccessToken) (h : gen_skype_token now r = .ok t) : now ≤ t.expires := by
  unfold gen_skype_token at h
  cases ht : r.tokens with
  | none => rw [ht] at h; exact Except.noConfusion h
  | some tk =>
    rw [ht] at h
    dsimp only at h
    cases hv : tk.skypeToken.bind JVal.as_str with
    | none => rw [hv] at h; exact Except.noConfusion h
    | some v =>
      rw [hv] at h
      dsimp only at h
      cases h
      exact Nat.le_add_right now _

theorem gen_step_ok_expires_ge (env : Env) (st : ClientState) (scope : String)
    (calls : List NetCall) (tok : AccessToken) (st2 : ClientState)
    (calls2 : List NetCall)
    (h : TeamsClient.gen_step env st scope calls = (.ok tok, st2, calls2)) :
    env.now ≤ tok.expires := by
  unfold TeamsClient.gen_step at h
  cases hg : env.genResp with
  | none => rw [hg] at h; exact absurd h (by simp)
  | some r =>
    rw [hg] at h
    dsimp only at h
    cases hp : gen_token env.now r with
    | error e => rw [hp] at h; exact absurd h (by simp)
    | ok nt =>
      rw [hp] at h
      dsimp only at h
      by_cases hs : env.saveOk = true
      · rw [if_pos hs] at h
        simp only [Prod.mk.injEq] at h
        obtain ⟨he, -⟩ := h
        injection he with he
        subst he
        exact gen_token_expires_ge env.now r nt hp
      · rw [if_neg hs] at h
        exact absurd h (by simp)

theorem scope_step_ok_expires_ge (env : Env) (st : ClientState) (scope : String)
    (calls : List NetCall) (tok : AccessToken) (st2 : ClientState)
    (calls2 : List NetCall)
    (h : TeamsClient.scope_step env st scope calls = (.ok tok, st2, calls2)) :
    env.now ≤ tok.expires := by
  unfold TeamsClient.scope_step at h
  cases hc : st.store.get scope with
  | none => rw [hc] at h; exact gen_step_ok_expires_ge _ _ _ _ _ _ _ h
  | some t =>
    rw [hc] at h
    dsimp only at h
    by_cases ht : env.now ≤ t.expires
    · rw [if_pos ht] at h
      simp only [Prod.mk.injEq] at h
      obtain ⟨he, -⟩ := h
      injection he with he
      subst he
      exact ht
    · rw [if_neg ht] at h
      exact gen_step_ok_expires_ge _ _ _ _ _ _ _ h

theorem get_token_ok_expires_ge (env : Env) (st : ClientState) (scope : String)
    (tok : AccessToken) (st2 : ClientState) (calls : List NetCall)
    (h : TeamsClient.get_token env st scope = (.ok tok, st2, calls)) :
    env.now ≤ tok.expires := by
  unfold TeamsClient.get_token at h
  cases hr : st.store.refresh_token with
  | none => rw [hr] at h; exact absurd h (by simp)
  | some rt =>
    rw [hr] at h
    dsimp only at h
    by_cases he : rt.expires < env.now
    · rw [if_pos he] at h
      cases hrr : env.renewResp with
      | none => rw [hrr] at h; exact absurd h (by simp)
      | some r1 =>
        rw [hrr] at h
        dsimp only at h
        cases hp : renew_refresh_token env.now r1 with
        | error e => rw [hp] at h; exact absurd h (by simp)
        | ok nrt =>
          rw [hp] at h
          dsimp only at h
          by_cases hs : env.saveOk = true
          · rw [if_pos hs] at h
            exact scope_step_ok_expires_ge _ _ _ _ _ _ _ h
          · rw [if_neg hs] at h
            exact absurd h (by simp)
    · rw [if_neg he] at h
      exact scope_step_ok_expires_ge _ _ _ _ _ _ _ h

theorem skype_step_ok_expires_ge (env : Env) (st : ClientState)
    (tok : AccessToken) (st2 : ClientState) (calls : List NetCall)
    (h : TeamsClient.skype_step env st = (.ok tok, st2, calls)) :
    env.now ≤ tok.expires := by
  unfold TeamsClient.skype_step at h
  rcases hq : TeamsClient.get_token env st SCOPE_SPACES with ⟨r, st1, calls1⟩
  rw [hq] at h
  cases r with
  | error e => dsimp only at h; exact absurd h (by simp)
  | ok spaces =>
    dsimp only at h
    cases hg : env.skypeResp with
    | none => rw [hg] at h; exact absurd h (by simp)
    | some resp =>
      rw [hg] at h
      dsimp only at h
      cases hp : gen_skype_token env.now resp with
      | error e => rw [hp] at h; exact absurd h (by simp)
      | ok nt =>
        rw [hp] at h
        dsimp only at h
        by_cases hs : env.saveOk = true
        · rw [if_pos hs] at h
          simp only [Prod.mk.injEq] at h
          obtain ⟨he, -⟩ := h
          injection he with he
          subst he
          exact gen_skype_token_expires_ge env.now resp nt hp
        · rw [if_neg hs] at h
          exact absurd h (by simp)

theorem get_skype_token_ok_expires_ge (env : Env) (st : ClientState)
    (tok : AccessToken) (st2 : ClientState) (calls : List NetCall)
    (h : TeamsClient.get_skype_token env st = (.ok tok, st2, calls)) :
    env.now ≤ tok.expires := by
  unfold TeamsClient.get_skype_token at h
  cases hc : st.store.skype_token with
  | none => rw [hc] at h; exact skype_step_ok_expires_ge _ _ _ _ _ h
  | some t =>
    rw [hc] at h
    dsimp only at h
    by_cases ht : env.now ≤ t.expires
    · rw [if_pos ht] at h
      simp only [Prod.mk.injEq] at h
      obtain ⟨he, -⟩ := h
      injection he with he
      subst he
      exact ht
    · rw [if_neg ht] at h
      exact skype_step_ok_expires_ge _ _ _ _ _ h

theorem login_loop_skip_pending (env : Env) (st : ClientState) (m : Nat)
    (rest : List PollResult) :
    ∀ (n a : Nat), a + n < m →
      login_loop env st m (List.replicate n .pending ++ rest) a =
        login_loop env st m rest (a + n) := by
  intro n
  induction n with
  | zero => intro a h; simp
  | succ k ih =>
    intro a h
    rw [List.replicate_succ, List.cons_append]
    simp only [login_loop]
    rw [if_neg (by omega)]
    rw [ih (a + 1) (by omega)]
    have hh : a + 1 + k = a + (k + 1) := by omega
    rw [hh]

theorem login_loop_authorized (env : Env) (st : ClientState) (token : AccessToken)
    (hsave : env.saveOk = true) (a : Nat) :
    login_loop env st max_attempts [.authorized token] a =
      (.success,
        ⟨st.store.insert "refresh_token" token,
          .valid (st.store.insert "refresh_token" token)⟩, [token]) := by
  simp [login_loop, TeamsClient.store_refresh_token, TeamsClient.save_tokens,
    Cache.save, hsave]

/-- Environment at time 100 with every network exchange failing. -/
def envQuiet : Env := ⟨100, none, none, none, true, true⟩

/-- Environment at time 100 where only the refresh renewal succeeds. -/
def envRenewOk : Env :=
  ⟨100, some ⟨some (.str "r2"), none, some (.num 3600)⟩, none, none, true, true⟩

/-- Environment at time 100 where renewal and exchange succeed with
positive expiries. -/
def envBothOk : Env :=
  ⟨100, some ⟨some (.str "r2"), none, some (.num 3600)⟩,
    some ⟨none, some (.str "a1"), some (.num 600)⟩, none, true, true⟩

/-- Environment at time 100 where renewal and exchange succeed but report
expires_in = 0. -/
def envZeroExpiry : Env :=
  ⟨100, some ⟨some (.str "r2"), none, some (.num 0)⟩,
    some ⟨none, some (.str "a1"), some (.num 0)⟩, none, true, true⟩

/-- Environment at time 100 whose disk delete fails. -/
def envDeleteFails : Env := ⟨100, none, none, none, true, false⟩

/-- State with a cached scope token but no refresh token. -/
def stBare : ClientState := ⟨⟨[("graph", ⟨"g", 200⟩)]⟩, .absent⟩

/-- State with an unexpired refresh token and unexpired "graph" token. -/
def stFresh : ClientState :=
  ⟨⟨[("refresh_token", ⟨"r1", 150⟩), ("graph", ⟨"g", 200⟩)]⟩, .absent⟩

/-- State with an expired refresh token and an unexpired "graph" token. -/
def stStaleRefresh : ClientState :=
  ⟨⟨[("refresh_token", ⟨"r1", 50⟩), ("graph", ⟨"g", 200⟩)]⟩, .absent⟩

/-- State holding only an expired refresh token. -/
def stOnlyStaleRefresh : ClientState := ⟨⟨[("refresh_token", ⟨"r1", 90⟩)]⟩, .absent⟩

/-- State whose refresh and "graph" tokens expire exactly at time 100. -/
def stBoundary : ClientState :=
  ⟨⟨[("refresh_token", ⟨"r1", 100⟩), ("graph", ⟨"g", 100⟩)]⟩, .absent⟩

/-- State with one token in memory and the matching artifact on disk. -/
def stLoggedIn : ClientState :=
  ⟨⟨[("refresh_token", ⟨"r1", 200⟩)]⟩, .valid ⟨[("refresh_token", ⟨"r1", 200⟩)]⟩⟩

/-- Claim C1 counterexample: the store caches an unexpired "graph" token,
yet `get_token "graph"` performs a (renewal) network call and modifies the
store, because the refresh token is expired; this refutes the unconditional
zero-network-calls / store-unmodified reading. -/
theorem C1_counterexample :
    stStaleRefresh.store.get "graph" = some ⟨"g", 200⟩ ∧
    envRenewOk.now ≤ 200 ∧
    (TeamsClient.get_token envRenewOk stStaleRefresh "graph").2.2 ≠ [] ∧
    (TeamsClient.get_token envRenewOk stStaleRefresh "graph").2.1 ≠ stStaleRefresh := by
  decide

/-- Claim C1 (amended): provided the stored refresh token is itself
unexpired, a cached scope token with `expires ≥ now` is returned exactly as
cached, with zero network calls and the store unmodified. -/
theorem C1_cached_token_no_network (env : Env) (st : ClientState) (scope : String)
    (rt t : AccessToken)
    (h1 : st.store.refresh_token = some rt) (h2 : env.now ≤ rt.expires)
    (h3 : st.store.get scope = some t) (h4 : env.now ≤ t.expires) :
    TeamsClient.get_token env st scope = (.ok t, st, []) := by
  rw [get_token_fresh_refresh env st scope rt h1 h2,
    scope_step_cached env st scope [] t h3 h4]

/-- Claim C1 witness: concrete fresh store, cached token returned unchanged
with no network calls. -/
theorem C1_cached_token_no_network_witness :
    TeamsClient.get_token envQuiet stFresh "graph" = (.ok ⟨"g", 200⟩, stFresh, []) :=
  C1_cached_token_no_network envQuiet stFresh "graph" ⟨"r1", 150⟩ ⟨"g", 200⟩
    (by decide) (by decide) (by decide) (by decide)

/-- Claim C2 counterexample: (i) with an expired refresh token but a cached
unexpired "graph" entry, `get_token "graph"` performs exactly one network
call (the renewal), not two; (ii) with provider responses reporting
`expires_in = 0`, both calls happen but the updated entries expire exactly
at `now`, so `expires > now` fails afterwards. -/
theorem C2_counterexample :
    ((TeamsClient.get_token envRenewOk stStaleRefresh "graph").2.2 = [.renew] ∧
      [NetCall.renew] ≠ [NetCall.renew, NetCall.exchange "graph"]) ∧
    ((TeamsClient.get_token envZeroExpiry stOnlyStaleRefresh "graph").2.2 =
        [.renew, .exchange "graph"] ∧
      (TeamsClient.get_token envZeroExpiry stOnlyStaleRefresh "graph").2.1.store.get
        "refresh_token" = some ⟨"r2", 100⟩ ∧
      (TeamsClient.get_token envZeroExpiry stOnlyStaleRefresh "graph").2.1.store.get
        "graph" = some ⟨"a1", 100⟩ ∧
      envZeroExpiry.now = 100 ∧ ¬ (100 < 100)) := by
  decide

/-- Claim C2 (amended): for a scope other than the reserved "refresh_token"
key, with no unexpired cached entry for it, an expired stored refresh
token, both exchanges succeeding with expiry strictly beyond now, and a
working cache, `get_token` performs exactly one renewal followed by exactly
one scope exchange and afterwards both entries expire strictly after now. -/
theorem C2_expired_refresh_two_calls (env : Env) (st : ClientState) (scope : String)
    (rt nrt nt : AccessToken) (r1 r2 : TokenResponse)
    (hs : scope ≠ "refresh_token")
    (h1 : st.store.refresh_token = some rt) (h2 : rt.expires < env.now)
    (hstale : ∀ t, st.store.get scope = some t → t.expires < env.now)
    (h3 : env.renewResp = some r1)
    (h4 : renew_refresh_token env.now r1 = .ok nrt) (h5 : env.now < nrt.expires)
    (h6 : env.genResp = some r2)
    (h7 : gen_token env.now r2 = .ok nt) (h8 : env.now < nt.expires)
    (h9 : env.saveOk = true) :
    ∃ st2 : ClientState,
      TeamsClient.get_token env st scope =
        (.ok nt, st2, [.renew, .exchange scope]) ∧
      st2.store.get "refresh_token" = some nrt ∧ env.now < nrt.expires ∧
      st2.store.get scope = some nt ∧ env.now < nt.expires := by
  have hstale2 : ∀ t, (st.store.insert "refresh_token" nrt).get scope = some t →
      t.expires < env.now := by
    intro t ht
    rw [TokenStore.get_insert_ne st.store "refresh_token" scope nrt hs] at ht
    exact hstale t ht
  refine ⟨⟨(st.store.insert "refresh_token" nrt).insert scope nt,
    .valid ((st.store.insert "refresh_token" nrt).insert scope nt)⟩, ?_, ?_, h5, ?_, h8⟩
  · rw [get_token_renew_ok env st scope rt nrt r1 h1 h2 h3 h4 h9,
      scope_step_stale _ _ _ _ hstale2, gen_step_ok _ _ _ _ r2 nt h6 h7 h9]
    rfl
  · rw [TokenStore.get_insert_ne _ scope "refresh_token" nt (fun hh => hs hh.symm),
      TokenStore.get_insert_self]
  · rw [TokenStore.get_insert_self]

/-- Claim C2 witness: concrete expired refresh token and no cached "graph"
entry; exactly two calls, both final entries unexpired. -/
theorem C2_expired_refresh_two_calls_witness :
    ∃ st2 : ClientState,
      TeamsClient.get_token envBothOk stOnlyStaleRefresh "graph" =
        (.ok ⟨"a1", 700⟩, st2, [.renew, .exchange "graph"]) ∧
      st2.store.get "refresh_token" = some ⟨"r2", 3700⟩ ∧ envBothOk.now < 3700 ∧
      st2.store.get "graph" = some ⟨"a1", 700⟩ ∧ envBothOk.now < 700 :=
  C2_expired_refresh_two_calls envBothOk stOnlyStaleRefresh "graph" ⟨"r1", 90⟩
    ⟨"r2", 3700⟩ ⟨"a1", 700⟩ ⟨some (.str "r2"), none, some (.num 3600)⟩
    ⟨none, some (.str "a1"), some (.num 600)⟩ (by decide) (by decide) (by decide)
    (fun t ht => by
      rw [(by decide : stOnlyStaleRefresh.store.get "graph" = none)] at ht
      exact Option.noConfusion ht)
    rfl (by decide) (by decide) rfl (by decide) (by decide) rfl

/-- Claim C3 counterexample: when the on-disk delete fails, `clear_tokens`
reports an error yet has already emptied the in-memory map, so the store is
not left unchanged on failure. -/
theorem C3_counterexample :
    TeamsClient.clear_tokens envDeleteFails stLoggedIn =
      (.error .CacheIOError, ⟨TokenStore.empty, stLoggedIn.disk⟩) ∧
    (⟨TokenStore.empty, stLoggedIn.disk⟩ : ClientState) ≠ stLoggedIn := by
  decide

/-- Claim C3 (amended): `clear_tokens` always empties the in-memory map;
when the disk delete works (or the file is absent) it also removes the
artifact and succeeds; clearing an already empty-and-absent store is a
no-op, not an error; but a failing disk delete surfaces an error with the
in-memory map nevertheless emptied and the file left in place. -/
theorem C3_clear_tokens (env : Env) (st : ClientState) :
    (TeamsClient.clear_tokens env st).2.store = TokenStore.empty ∧
    (env.deleteOk = true →
      TeamsClient.clear_tokens env st = (.ok (), ⟨TokenStore.empty, .absent⟩)) ∧
    (st.disk = .absent →
      TeamsClient.clear_tokens env st = (.ok (), ⟨TokenStore.empty, .absent⟩)) ∧
    (env.deleteOk = false → st.disk ≠ .absent →
      TeamsClient.clear_tokens env st =
        (.error .CacheIOError, ⟨TokenStore.empty, st.disk⟩)) := by
  cases hd : st.disk <;> cases ho : env.deleteOk <;>
    simp [TeamsClient.clear_tokens, Cache.delete, hd, ho]

/-- Claim C3 witness: clearing a logged-in store with a working disk
empties both the map and the artifact. -/
theorem C3_clear_tokens_witness :
    TeamsClient.clear_tokens envQuiet stLoggedIn =
      (.ok (), ⟨TokenStore.empty, .absent⟩) :=
  (C3_clear_tokens envQuiet stLoggedIn).2.1 rfl

/-- Claim C4 counterexample: a cached token expiring exactly at now is
returned, so the strict bound `expires > now` fails at the boundary (the
code compares with `>=`). -/
theorem C4_counterexample :
    TeamsClient.get_token envQuiet stBoundary "graph" =
      (.ok ⟨"g", 100⟩, stBoundary, []) ∧
    envQuiet.now = 100 ∧ ¬ (100 < 100) := by
  decide

/-- Claim C4 (amended): every token returned by `get_token` or
`get_skype_token` satisfies `expires ≥ now` at the moment it is returned. -/
theorem C4_returned_tokens_unexpired (env : Env) (st : ClientState) :
    (∀ (scope : String) (tok : AccessToken) (st2 : ClientState)
        (calls : List NetCall),
      TeamsClient.get_token env st scope = (.ok tok, st2, calls) →
      env.now ≤ tok.expires) ∧
    (∀ (tok : AccessToken) (st2 : ClientState) (calls : List NetCall),
      TeamsClient.get_skype_token env st = (.ok tok, st2, calls) →
      env.now ≤ tok.expires) :=
  ⟨fun scope tok st2 calls h => get_token_ok_expires_ge env st scope tok st2 calls h,
   fun tok st2 calls h => get_skype_token_ok_expires_ge env st tok st2 calls h⟩

/-- Claim C4 witness: the concrete cached token returned at time 100 has
expiry 200 ≥ 100. -/
theorem C4_returned_tokens_unexpired_witness :
    envQuiet.now ≤ (⟨"g", 200⟩ : AccessToken).expires :=
  (C4_returned_tokens_unexpired envQuiet stFresh).1 "graph" ⟨"g", 200⟩ stFresh []
    (by decide)

/-- Claim C5 counterexample: constructing the client from a corrupt
tokens.json surfaces the cache error instead of behaving as if no tokens
were cached. -/
theorem C5_counterexample :
    TeamsClient.new .corrupt = .error .CacheIOError ∧
    TeamsClient.new .corrupt ≠ .ok ⟨TokenStore.empty, .corrupt⟩ := by
  decide

/-- Claim C5 (amended): only an absent cache file degrades to the empty
store; a file that cannot be read or parsed makes `Cache::load`, and hence
`TeamsClient::new`, fail with the cache error rather than degrade. -/
theorem C5_load_behaviour :
    TeamsClient.new .absent = .ok ⟨TokenStore.empty, .absent⟩ ∧
    (∀ ts, TeamsClient.new (.valid ts) = .ok ⟨ts, .valid ts⟩) ∧
    Cache.load .absent = .ok none ∧
    TeamsClient.new .corrupt = .error .CacheIOError ∧
    Cache.load .corrupt = .error .CacheIOError :=
  ⟨rfl, fun _ => rfl, rfl, rfl, rfl⟩

/-- Claim C6: in the polling loop with budget 60, any N < 60 pending
responses followed by an authorized one terminate successfully writing the
refresh token exactly once; 60 pending responses terminate as a timeout
with no token ever written. -/
theorem C6_login_polling (env : Env) (st : ClientState) :
    (∀ (n : Nat) (token : AccessToken), n < max_attempts → env.saveOk = true →
      login_loop env st max_attempts
          (List.replicate n .pending ++ [.authorized token]) 0 =
        (.success,
          ⟨st.store.insert "refresh_token" token,
            .valid (st.store.insert "refresh_token" token)⟩, [token])) ∧
    login_loop env st max_attempts (List.replicate max_attempts .pending) 0 =
      (.timeout, st, []) := by
  constructor
  · intro n token hn hsave
    rw [login_loop_skip_pending env st max_attempts [.authorized token] n 0
      (by omega)]
    exact login_loop_authorized env st token hsave (0 + n)
  · rw [show (max_attempts : Nat) = 59 + 1 from rfl, List.replicate_succ']
    rw [login_loop_skip_pending env st (59 + 1) [.pending] 59 0 (by omega)]
    simp [login_loop, max_attempts]

/-- Claim C6 witness: two pending responses then an authorized one
terminate successfully with exactly one stored token. -/
theorem C6_login_polling_witness :
    login_loop envQuiet stBare max_attempts
        (List.replicate 2 .pending ++ [.authorized ⟨"rt0", 9999⟩]) 0 =
      (.success,
        ⟨stBare.store.insert "refresh_token" ⟨"rt0", 9999⟩,
          .valid (stBare.store.insert "refresh_token" ⟨"rt0", 9999⟩)⟩,
        [⟨"rt0", 9999⟩]) :=
  (C6_login_polling envQuiet stBare).1 2 ⟨"rt0", 9999⟩ (by decide) rfl

/-- Claim C7: a failing renewal exchange makes `get_token` fail
`TokenExchangeFailed` with the whole store untouched; a failing scope
exchange fails the same way leaving the store exactly as it was after the
(possibly performed) renewal step, with the scope entry unmodified. -/
theorem C7_exchange_failure (env : Env) (st : ClientState) (scope : String)
    (rt : AccessToken) :
    (st.store.refresh_token = some rt → rt.expires < env.now →
      env.renewResp = none →
      TeamsClient.get_token env st scope =
        (.error .TokenExchangeFailed, st, [.renew])) ∧
    (st.store.refresh_token = some rt → env.now ≤ rt.expires →
      (∀ t, st.store.get scope = some t → t.expires < env.now) →
      env.genResp = none →
      TeamsClient.get_token env st scope =
        (.error .TokenExchangeFailed, st, [.exchange scope])) ∧
    (∀ (r1 : TokenResponse) (nrt : AccessToken),
      st.store.refresh_token = some rt → rt.expires < env.now →
      env.renewResp = some r1 → renew_refresh_token env.now r1 = .ok nrt →
      env.saveOk = true → scope ≠ "refresh_token" →
      (∀ t, st.store.get scope = some t → t.expires < env.now) →
      env.genResp = none →
      TeamsClient.get_token env st scope =
        (.error .TokenExchangeFailed,
          ⟨st.store.insert "refresh_token" nrt,
            .valid (st.store.insert "refresh_token" nrt)⟩,
          [.renew, .exchange scope]) ∧
      (st.store.insert "refresh_token" nrt).get scope = st.store.get scope) := by
  refine ⟨?_, ?_, ?_⟩
  · intro h1 h2 h3
    exact get_token_renew_netfail env st scope rt h1 h2 h3
  · intro h1 h2 hst h3
    rw [get_token_fresh_refresh env st scope rt h1 h2,
      scope_step_stale env st scope [] hst, gen_step_netfail env st scope [] h3]
    rfl
  · intro r1 nrt h1 h2 h3 h4 h5 hs hst h6
    have hstale2 : ∀ t, (st.store.insert "refresh_token" nrt).get scope = some t →
        t.expires < env.now := by
      intro t ht
      rw [TokenStore.get_insert_ne st.store "refresh_token" scope nrt hs] at ht
      exact hst t ht
    constructor
    · rw [get_token_renew_ok env st scope rt nrt r1 h1 h2 h3 h4 h5,
        scope_step_stale _ _ _ _ hstale2, gen_step_netfail _ _ _ _ h6]
      rfl
    · exact TokenStore.get_insert_ne st.store "refresh_token" scope nrt hs

/-- Claim C7 witness: a failing renewal on an expired refresh token fails
`TokenExchangeFailed` with the store untouched. -/
theorem C7_exchange_failure_witness :
    TeamsClient.get_token envQuiet stOnlyStaleRefresh "graph" =
      (.error .TokenExchangeFailed, stOnlyStaleRefresh, [.renew]) :=
  (C7_exchange_failure envQuiet stOnlyStaleRefresh "graph" ⟨"r1", 90⟩).1
    (by decide) (by decide) rfl

/-- Claim C8: with no "refresh_token" entry, `get_token` fails
`NotAuthenticated` with zero network calls and the store unchanged, for
every scope and environment. -/
theorem C8_no_refresh_not_authenticated (env : Env) (st : ClientState)
    (scope : String) (h : st.store.refresh_token = none) :
    TeamsClient.get_token env st scope = (.error .NotAuthenticated, st, []) :=
  get_token_no_refresh env st scope h

/-- Claim C8 witness: a store holding only a "graph" token is not
authenticated. -/
theorem C8_no_refresh_not_authenticated_witness :
    TeamsClient.get_token envQuiet stBare "graph" =
      (.error .NotAuthenticated, stBare, []) :=
  C8_no_refresh_not_authenticated envQuiet stBare "graph" (by decide)

/-- Claim C9: a provider response carrying the required token field but
omitting its expiry field succeeds with `expires = now + 3600`, in all four
token-issuing exchanges. -/
theorem C9_default_expiry (now : Nat) (v : String) :
    gen_refresh_token_from_device_code now ⟨some (.str v), none, none⟩ =
      .ok ⟨v, now + 3600⟩ ∧
    renew_refresh_token now ⟨some (.str v), none, none⟩ = .ok ⟨v, now + 3600⟩ ∧
    gen_token now ⟨none, some (.str v), none⟩ = .ok ⟨v, now + 3600⟩ ∧
    gen_skype_token now ⟨some ⟨some (.str v), none⟩⟩ = .ok ⟨v, now + 3600⟩ :=
  ⟨rfl, rfl, rfl, rfl⟩

/-- Claim C10: `is_authenticated` is true exactly when the store holds a
"refresh_token" entry, regardless of that entry's expiry (the second part
holds for every expiry value, including 0). -/
theorem C10_is_authenticated_iff :
    (∀ st : ClientState, TeamsClient.is_authenticated st = true ↔
      ∃ t, st.store.refresh_token = some t) ∧
    (∀ (v : String) (e : Nat) (d : DiskFile),
      TeamsClient.is_authenticated ⟨⟨[("refresh_token", ⟨v, e⟩)]⟩, d⟩ = true) := by
  constructor
  · intro st
    unfold TeamsClient.is_authenticated
    exact Option.isSome_iff_exists
  · intro v e d
    rfl

end Squads
